import Mathlib

/-!
Shallow embedding of the notebook `optimize-llama-gptq-optimum.ipynb`.

The notebook is a straight-line script: it builds a `GPTQQuantizer`, loads a
model, quantizes it, saves the result together with two JSON configuration
files, benchmarks the original and the quantized model with a small helper
function, and finally shows a container invocation of an external inference
server.  The definitions below embed, cell by cell, the data the notebook
manipulates (JSON values, the on-disk files it writes, the quantizer object,
the benchmarking helper, the sequence of operations) and the theorems settle
the specification claims about them.
-/

set_option autoImplicit false

namespace GPTQNotebook

/-! ## JSON values

The notebook reads and writes JSON with `json.load` / `json.dump`.  A JSON
value is modelled structurally; objects are association lists, which keeps
the insertion order that Python dictionaries guarantee. -/

inductive Json where
  | null : Json
  | bool : Bool → Json
  | num : Int → Json
  | str : String → Json
  | arr : List Json → Json
  | obj : List (String × Json) → Json

/-- Lookup of a key in an association list, first occurrence wins, as in a
Python dictionary (whose keys are unique anyway). -/
def lookupStr {α : Type} (k : String) : List (String × α) → Option α
  | [] => none
  | (k1, v) :: rest => if k1 = k then some v else lookupStr k rest

/-- Assignment `d[k] = v` on a Python dictionary: the first binding of `k`
is replaced in place, and a missing key is appended at the end, preserving
insertion order. -/
def setKey {α : Type} (k : String) (v : α) : List (String × α) → List (String × α)
  | [] => [(k, v)]
  | (k1, v1) :: rest => if k1 = k then (k, v) :: rest else (k1, v1) :: setKey k v rest

theorem lookupStr_setKey_self {α : Type} (k : String) (v : α) (l : List (String × α)) :
    lookupStr k (setKey k v l) = some v := by
  induction l with
  | nil => simp [setKey, lookupStr]
  | cons hd tl ih =>
    obtain ⟨k1, v1⟩ := hd
    by_cases h : k1 = k
    · simp [setKey, h, lookupStr]
    · simp [setKey, h, lookupStr, ih]

theorem lookupStr_setKey_ne {α : Type} (k k2 : String) (v : α) (l : List (String × α))
    (h : k2 ≠ k) : lookupStr k2 (setKey k v l) = lookupStr k2 l := by
  induction l with
  | nil => simp [setKey, lookupStr, Ne.symm h]
  | cons hd tl ih =>
    obtain ⟨k1, v1⟩ := hd
    by_cases h1 : k1 = k
    · subst h1
      simp [setKey, lookupStr, Ne.symm h]
    · simp [setKey, h1, lookupStr, ih]

theorem keys_setKey_of_lookup {α : Type} (k : String) (v w : α) (l : List (String × α))
    (h : lookupStr k l = some w) :
    (setKey k v l).map Prod.fst = l.map Prod.fst := by
  induction l with
  | nil => simp [lookupStr] at h
  | cons hd tl ih =>
    obtain ⟨k1, v1⟩ := hd
    by_cases h1 : k1 = k
    · simp [setKey, h1]
    · simp [lookupStr, h1] at h
      simp [setKey, h1, ih h]

/-- Field access on a JSON object, `j["k"]` in Python. -/
def Json.lookupKey (j : Json) (k : String) : Option Json :=
  match j with
  | .obj kvs => lookupStr k kvs
  | _ => none

/-! ## The file system

Only the JSON files the notebook itself reads or writes are modelled: the
file system is a map from path to parsed JSON content. -/

def FS : Type := List (String × Json)

/-- On POSIX, `os.path.join(a, b)` with a relative second component. -/
def pathJoin (a b : String) : String := a ++ "/" ++ b

/-! ## The quantizer object

Cell 2 defines `dataset_id = "wikitext2"`; cell 3 constructs
`GPTQQuantizer(bits=4, dataset=dataset_id, model_seqlen=4096)` and then
assigns `quantizer.quant_method = "gptq"`.  The class itself lives in the
external `optimum` library; the fields the notebook touches are `bits`,
`dataset`, `model_seqlen`, `disable_exllama` and `quant_method`. -/

structure GPTQQuantizer where
  bits : Int
  dataset : String
  model_seqlen : Int
  disable_exllama : Bool
  quant_method : String

def dataset_id : String := "wikitext2"

/-- The keyword arguments of the single constructor call
`GPTQQuantizer(bits=4, dataset=dataset_id, model_seqlen=4096)`, in source
order. -/
def gptqConstructorArgs : List (String × Json) :=
  [("bits", .num 4), ("dataset", .str dataset_id), ("model_seqlen", .num 4096)]

/-- Modelled from the spec: the `GPTQQuantizer` constructor is code of the
external `optimum` library, absent from this repository.  Per the spec the
quantizer is "configured with {bit width, calibration dataset identifier,
maximum sequence length}"; the remaining fields receive library defaults,
which are kept abstract as parameters `dEx` and `qm`. -/
def GPTQQuantizer.make (bits : Int) (dataset : String) (model_seqlen : Int)
    (dEx : Bool) (qm : String) : GPTQQuantizer :=
  { bits := bits, dataset := dataset, model_seqlen := model_seqlen,
    disable_exllama := dEx, quant_method := qm }

/-- Cell 3: construct the quantizer from the three keyword arguments and then
set the attribute `quant_method` to `"gptq"`. -/
def quantizerCell (dEx : Bool) (qm : String) : GPTQQuantizer :=
  let quantizer := GPTQQuantizer.make 4 dataset_id 4096 dEx qm
  { quantizer with quant_method := "gptq" }

/-! ## The quantize-and-save cell and the config rewrite cell -/

def save_folder : String := "quantized_llama"

/-- Modelled from the spec: `GPTQQuantizer.to_dict` is code of the external
`optimum` library, absent from this repository.  Per the spec the serialized
dictionary is "a small JSON configuration file recording quantization
parameters (bit width, a flag controlling which inference kernel
implementation to use)": it maps the parameter names to the current field
values, in particular `bits` and `disable_exllama`. -/
def GPTQQuantizer.to_dict (q : GPTQQuantizer) : Json :=
  .obj [("bits", .num q.bits), ("dataset", .str q.dataset),
        ("model_seqlen", .num q.model_seqlen),
        ("disable_exllama", .bool q.disable_exllama),
        ("quant_method", .str q.quant_method)]

/-- The tail of the quantize-and-save cell: open
`os.path.join(save_folder, "quantize_config.json")` for writing, set
`quantizer.disable_exllama = False`, and `json.dump(quantizer.to_dict(), f)`.
`q` is the quantizer as `quantize_model` left it; the result is the updated
quantizer and the updated file system. -/
def writeQuantizeConfigCell (q : GPTQQuantizer) (fs : FS) : GPTQQuantizer × FS :=
  let q1 := { q with disable_exllama := false }
  (q1, setKey (pathJoin save_folder "quantize_config.json") q1.to_dict fs)

/-- The config-rewrite statement
`config["quantization_config"]["disable_exllama"] = False` on a parsed JSON
value.  A missing key raises `KeyError`; indexing a non-object raises
`TypeError`; both propagate. -/
def rewriteConfig (config : Json) : Except String Json :=
  match config with
  | .obj kvs =>
    match lookupStr "quantization_config" kvs with
    | some (.obj qkvs) =>
      .ok (.obj (setKey "quantization_config"
        (.obj (setKey "disable_exllama" (.bool false) qkvs)) kvs))
    | some _ => .error "TypeError"
    | none => .error "KeyError"
  | _ => .error "TypeError"

/-- The whole config-rewrite cell: read `save_folder/config.json` from disk,
apply the in-place update, and write the result back to the same path. -/
def configRewriteCell (fs : FS) : Except String FS :=
  match lookupStr (pathJoin save_folder "config.json") fs with
  | none => .error "FileNotFoundError"
  | some config =>
    (rewriteConfig config).map
      (fun c => setKey (pathJoin save_folder "config.json") c fs)

/-! ## The benchmarking helper

`generate_helper(pipeline, prompt=prompt)` performs five warm-up calls
`pipeline("Warm up")`, then times a single call
`pipeline(prompt, max_new_tokens=100, do_sample=True, top_p=0.9,
temperature=0.9)` with `time.time()` before and after, takes the text of
`out[0]["generated_text"]` beyond the prompt, and divides the elapsed time by
the length of `pipeline.tokenizer(generated_text)["input_ids"]`.  A pipeline
is modelled by the three observations the helper makes of it: the full
generated text of a call, the wall-clock duration of a call, and the
tokenizer.  Division by a zero token count is Python's `ZeroDivisionError`. -/

structure GenParams where
  max_new_tokens : Nat
  do_sample : Bool
  top_p : ℚ
  temperature : ℚ

/-- The keyword arguments of the one timed call:
`max_new_tokens=100, do_sample=True, top_p=0.9, temperature=0.9`. -/
def measuredParams : GenParams :=
  { max_new_tokens := 100, do_sample := true, top_p := 9/10, temperature := 9/10 }

structure Pipeline where
  generate : String → Option GenParams → String
  duration : String → Option GenParams → ℚ
  tokenize : String → List Nat

structure GenResult where
  text : String
  latency_per_token_in_ms : ℚ

/-- The five warm-up invocations `pipeline("Warm up")`, called with no
generation keywords. -/
def warmupCalls : List (String × Option GenParams) :=
  List.replicate 5 ("Warm up", none)

/-- The embedding of `generate_helper`.  It returns the list of pipeline
invocations the helper performs, in order, and the helper's result: the
generated text beyond the prompt together with the latency per token, or the
`ZeroDivisionError` when the generated text tokenizes to zero tokens.  The
clock starts after the warm-up calls (`start = time.time()` follows the
loop), so `start` is the warm-up time and `endT` adds only the duration of
the one timed call. -/
def generateHelper (p : Pipeline) (prompt : String) :
    List (String × Option GenParams) × Except String GenResult :=
  let calls := warmupCalls ++ [(prompt, some measuredParams)]
  let start : ℚ := ((warmupCalls.map (fun c => p.duration c.1 c.2)).sum : ℚ)
  let fullText := p.generate prompt (some measuredParams)
  let endT : ℚ := start + p.duration prompt (some measuredParams)
  let generated_text := fullText.drop prompt.length
  let n := (p.tokenize generated_text).length
  (calls,
    if n = 0 then .error "ZeroDivisionError"
    else .ok { text := generated_text,
               latency_per_token_in_ms := ((endT - start) / (n : ℚ)) * 1000 })

/-! ## The recorded benchmark outputs

The two benchmark cells print latency and allocated GPU memory and record
the observed run in trailing comments: the vanilla model at 37.49 ms/token
and 12.62 GB, the quantized model at 36.0 ms/token and 3.83 GB. -/

def vanillaLatencyMsPerToken : ℚ := 3749/100

def vanillaGpuMemoryGb : ℚ := 1262/100

def gptqLatencyMsPerToken : ℚ := 36

def gptqGpuMemoryGb : ℚ := 383/100

/-! ## The container invocation of the inference server

The last code cell sets shell variables and runs
`docker run --gpus all -ti -p 8080:80 -e MODEL_ID=$model -e QUANTIZE=$quantize
-e NUM_SHARD=$num_shard -e MAX_INPUT_LENGTH=$max_input_length
-e MAX_TOTAL_TOKENS=$max_total_tokens -v $model:$model
ghcr.io/huggingface/text-generation-inference:1.0.3`. -/

structure DockerRun where
  gpus : String
  interactiveTty : Bool
  ports : List String
  envVars : List (String × String)
  volumes : List (String × String)
  image : String

def tgiDockerRun : DockerRun :=
  { gpus := "all"
    interactiveTty := true
    ports := ["8080:80"]
    envVars := [("MODEL_ID", "/home/ubuntu/test-gptq"),
                ("QUANTIZE", "gptq"),
                ("NUM_SHARD", "1"),
                ("MAX_INPUT_LENGTH", "1562"),
                ("MAX_TOTAL_TOKENS", "4096")]
    volumes := [("/home/ubuntu/test-gptq", "/home/ubuntu/test-gptq")]
    image := "ghcr.io/huggingface/text-generation-inference:1.0.3" }

/-! ## The notebook as a sequence of operations

Every effectful step of the notebook, in the order the cells perform them.
The names follow the source: cell 1 installs the packages, cell 2 defines
`dataset_id`, cell 3 builds the quantizer, cell 4 loads tokenizer and model,
cell 5 quantizes and saves, cell 6 rewrites `config.json`, cell 7 defines the
prompt and `generate_helper`, cell 8 loads the vanilla model and pipeline,
cell 9 benchmarks it, cell 10 deletes the pipeline, model and tokenizer and
empties the CUDA cache, cell 11 reloads the quantized model from the save
folder, cell 12 benchmarks it, cell 13 runs the inference-server container
and cell 14 sends it a generation request with curl. -/

inductive Op where
  | pipInstall
  | defineDataset
  | constructQuantizer
  | setQuantMethod
  | loadTokenizerSlow
  | loadModelFp16
  | quantizeModel
  | savePretrained
  | saveTokenizer
  | writeQuantizeConfig
  | rewriteConfigJson
  | definePromptAndHelper
  | loadVanillaTokenizer
  | loadVanillaModel
  | buildVanillaPipeline
  | benchmarkVanilla
  | delPipe
  | delModel
  | delTokenizer
  | emptyCache
  | loadQuantizedTokenizer
  | loadQuantizedModel
  | buildQuantizedPipeline
  | benchmarkQuantized
  | dockerRunTgi
  | curlGenerate
deriving DecidableEq, Repr

/-- The notebook's code cells, each the list of its effectful steps. -/
def notebookCells : List (List Op) :=
  [[.pipInstall],
   [.defineDataset],
   [.constructQuantizer, .setQuantMethod],
   [.loadTokenizerSlow, .loadModelFp16],
   [.quantizeModel, .savePretrained, .saveTokenizer, .writeQuantizeConfig],
   [.rewriteConfigJson],
   [.definePromptAndHelper],
   [.loadVanillaTokenizer, .loadVanillaModel, .buildVanillaPipeline],
   [.benchmarkVanilla],
   [.delPipe, .delModel, .delTokenizer, .emptyCache],
   [.loadQuantizedTokenizer, .loadQuantizedModel, .buildQuantizedPipeline],
   [.benchmarkQuantized],
   [.dockerRunTgi],
   [.curlGenerate]]

/-- The flat sequence of the notebook's operations. -/
def notebookOps : List Op := notebookCells.flatten

/-- The rank a step has in the order the specification claims:
setup = 0, load = 1, quantize = 2, save = 3, reload = 4, benchmark = 5,
deploy = 6.  Steps that are none of those seven (the helper definition, the
cleanup deletions, pipeline construction) get no rank and are ignored by the
order check. -/
def claimedPhase : Op → Option Nat
  | .pipInstall => some 0
  | .defineDataset => some 0
  | .constructQuantizer => some 0
  | .setQuantMethod => some 0
  | .loadTokenizerSlow => some 1
  | .loadModelFp16 => some 1
  | .quantizeModel => some 2
  | .savePretrained => some 3
  | .saveTokenizer => some 3
  | .writeQuantizeConfig => some 3
  | .rewriteConfigJson => some 3
  | .loadVanillaTokenizer => some 1
  | .loadVanillaModel => some 1
  | .benchmarkVanilla => some 5
  | .loadQuantizedTokenizer => some 4
  | .loadQuantizedModel => some 4
  | .benchmarkQuantized => some 5
  | .dockerRunTgi => some 6
  | .curlGenerate => some 6
  | _ => none

/-- Whether a list of phase ranks never decreases. -/
def ranksMonotone : List Nat → Bool
  | [] => true
  | [_] => true
  | a :: b :: rest => a ≤ b && ranksMonotone (b :: rest)

/-- The order the claim states: along the notebook, the ranked steps never
go from a later phase back to an earlier one. -/
def claimedOrderHolds : Prop :=
  ranksMonotone (notebookOps.filterMap claimedPhase) = true

instance : Decidable claimedOrderHolds :=
  inferInstanceAs (Decidable (_ = true))

/-! ## The notebook as a statement of a language with exception handling

To settle the error-propagation claim the script is re-read as a term of a
tiny statement language that does have a `try/except` construct, so that the
absence of handlers in the notebook is a checkable property of the term and
not of the language.  Library calls are the only failure sources; `evalStmt`
gives the language its Python semantics, where `tryHandle a h` runs `h`
whenever `a` raises. -/

inductive Stmt where
  | skip : Stmt
  | libCall : Op → Stmt
  | seq : Stmt → Stmt → Stmt
  | tryHandle : Stmt → Stmt → Stmt

/-- Whether a statement contains any `try/except` handler. -/
def containsTry : Stmt → Bool
  | .skip => false
  | .libCall _ => false
  | .seq a b => containsTry a || containsTry b
  | .tryHandle _ _ => true

/-- Python semantics of the statement language over an environment `env`
giving the outcome of each library call on the current interpreter state. -/
def evalStmt {σ ε : Type} (env : Op → σ → Except ε σ) : Stmt → σ → Except ε σ
  | .skip, s => .ok s
  | .libCall op, s => env op s
  | .seq a b, s =>
    match evalStmt env a s with
    | .ok s1 => evalStmt env b s1
    | .error e => .error e
  | .tryHandle a h, s =>
    match evalStmt env a s with
    | .ok s1 => .ok s1
    | .error _ => evalStmt env h s

/-- A list of operations read as a straight-line statement. -/
def stmtOfOps : List Op → Stmt
  | [] => .skip
  | op :: rest => .seq (.libCall op) (stmtOfOps rest)

/-- The notebook as a statement: the sequence of its library calls. -/
def notebookStmt : Stmt := stmtOfOps notebookOps

/-- Reference semantics of a straight-line script: run each call in order
and abort with the first error, returned to the caller unchanged. -/
def runOps {σ ε : Type} (env : Op → σ → Except ε σ) : List Op → σ → Except ε σ
  | [], s => .ok s
  | op :: rest, s =>
    match env op s with
    | .ok s1 => runOps env rest s1
    | .error e => .error e

theorem containsTry_stmtOfOps (ops : List Op) : containsTry (stmtOfOps ops) = false := by
  induction ops with
  | nil => rfl
  | cons op rest ih => simp [stmtOfOps, containsTry, ih]

theorem evalStmt_stmtOfOps {σ ε : Type} (env : Op → σ → Except ε σ) (ops : List Op)
    (s : σ) : evalStmt env (stmtOfOps ops) s = runOps env ops s := by
  induction ops generalizing s with
  | nil => rfl
  | cons op rest ih =>
    simp only [stmtOfOps, evalStmt, runOps]
    cases env op s with
    | ok s1 => exact ih s1
    | error e => rfl

theorem runOps_error_origin {σ ε : Type} (env : Op → σ → Except ε σ) (ops : List Op)
    (s : σ) (e : ε) (h : runOps env ops s = .error e) :
    ∃ op s1, op ∈ ops ∧ env op s1 = .error e := by
  induction ops generalizing s with
  | nil => simp [runOps] at h
  | cons op rest ih =>
    simp only [runOps] at h
    cases henv : env op s with
    | ok s1 =>
      rw [henv] at h
      obtain ⟨op2, s2, hmem, h2⟩ := ih s1 h
      exact ⟨op2, s2, List.mem_cons_of_mem _ hmem, h2⟩
    | error e1 =>
      rw [henv] at h
      cases h
      exact ⟨op, s, List.mem_cons_self _ _, henv⟩

/-! ## Claim theorems -/

/-- C2: the quantizer object is constructed with exactly three configuration
inputs, the bit width 4, the calibration dataset identifier `"wikitext2"`
and the maximum sequence length 4096, and the constructed quantizer carries
exactly those values, whatever library defaults `dEx` and `qm` the
constructor fills in for the remaining fields. -/
theorem claim_C2_quantizer_three_inputs (dEx : Bool) (qm : String) :
    gptqConstructorArgs.length = 3 ∧
    gptqConstructorArgs =
      [("bits", .num 4), ("dataset", .str "wikitext2"), ("model_seqlen", .num 4096)] ∧
    (quantizerCell dEx qm).bits = 4 ∧
    (quantizerCell dEx qm).dataset = "wikitext2" ∧
    (quantizerCell dEx qm).model_seqlen = 4096 :=
  ⟨rfl, rfl, rfl, rfl, rfl⟩

/-- Witness for C2 at the library defaults `true` and `"none"`. -/
theorem claim_C2_quantizer_three_inputs_witness :
    (quantizerCell true "none").dataset = "wikitext2" :=
  (claim_C2_quantizer_three_inputs true "none").2.2.2.1

/-- C1: whatever state `quantize_model` left the quantizer in, the
quantize-and-save cell sets `disable_exllama` to `False` before serializing
and writes the parameter dictionary to `quantized_llama/quantize_config.json`;
the written dictionary records `bits = 4` and `disable_exllama = false`. -/
theorem claim_C1_quantize_config_written (q : GPTQQuantizer) (fs : FS)
    (hb : q.bits = 4) :
    ((writeQuantizeConfigCell q fs).1).disable_exllama = false ∧
    lookupStr (pathJoin save_folder "quantize_config.json") (writeQuantizeConfigCell q fs).2
      = some (({ q with disable_exllama := false } : GPTQQuantizer).to_dict) ∧
    (({ q with disable_exllama := false } : GPTQQuantizer).to_dict).lookupKey "bits"
      = some (.num 4) ∧
    (({ q with disable_exllama := false } : GPTQQuantizer).to_dict).lookupKey "disable_exllama"
      = some (.bool false) := by
  refine ⟨rfl, lookupStr_setKey_self _ _ _, ?_, ?_⟩
  · simp [GPTQQuantizer.to_dict, Json.lookupKey, lookupStr, hb]
  · simp [GPTQQuantizer.to_dict, Json.lookupKey, lookupStr]

/-- Witness for C1: the notebook quantizer after `quantize_model` set
`disable_exllama` to `True`, on an empty file system. -/
theorem claim_C1_quantize_config_written_witness :
    ((writeQuantizeConfigCell (quantizerCell true "gptq") []).1).disable_exllama = false :=
  (claim_C1_quantize_config_written (quantizerCell true "gptq") [] rfl).1

/-- C3: on the benchmarked run recorded in the notebook the quantized model
uses 3.83 GB against 12.62 GB for the vanilla model, between a quarter and
a third of it, and its 36.0 ms/token latency beats the vanilla
37.49 ms/token. -/
theorem claim_C3_recorded_benchmark :
    gptqGpuMemoryGb = 383/100 ∧ vanillaGpuMemoryGb = 1262/100 ∧
    gptqLatencyMsPerToken = 36 ∧ vanillaLatencyMsPerToken = 3749/100 ∧
    vanillaGpuMemoryGb / 4 ≤ gptqGpuMemoryGb ∧
    gptqGpuMemoryGb ≤ vanillaGpuMemoryGb / 3 ∧
    gptqLatencyMsPerToken < vanillaLatencyMsPerToken := by
  refine ⟨rfl, rfl, rfl, rfl, ?_, ?_, ?_⟩ <;>
    norm_num [vanillaGpuMemoryGb, gptqGpuMemoryGb,
      vanillaLatencyMsPerToken, gptqLatencyMsPerToken]

/-- C9: the container invocation passes exactly the five environment
variables MODEL_ID, QUANTIZE, NUM_SHARD, MAX_INPUT_LENGTH and
MAX_TOTAL_TOKENS, with the values the cell sets, against the fixed
text-generation-inference image. -/
theorem claim_C9_docker_invocation :
    tgiDockerRun.envVars =
      [("MODEL_ID", "/home/ubuntu/test-gptq"),
       ("QUANTIZE", "gptq"),
       ("NUM_SHARD", "1"),
       ("MAX_INPUT_LENGTH", "1562"),
       ("MAX_TOTAL_TOKENS", "4096")] ∧
    tgiDockerRun.envVars.length = 5 ∧
    tgiDockerRun.envVars.map Prod.fst =
      ["MODEL_ID", "QUANTIZE", "NUM_SHARD", "MAX_INPUT_LENGTH", "MAX_TOTAL_TOKENS"] ∧
    tgiDockerRun.image = "ghcr.io/huggingface/text-generation-inference:1.0.3" :=
  ⟨rfl, rfl, rfl, rfl⟩

/-- C4: `generate_helper` performs exactly five warm-up calls followed by
one measured call, the warm-ups lie outside the timed interval, and on
success the reported latency per token is derived from the duration of that
single timed call alone. -/
theorem claim_C4_single_timed_call (p : Pipeline) (prompt : String) :
    (generateHelper p prompt).1
      = List.replicate 5 ("Warm up", (none : Option GenParams))
        ++ [(prompt, some measuredParams)] ∧
    (∀ r, (generateHelper p prompt).2 = .ok r →
      r.latency_per_token_in_ms =
        p.duration prompt (some measuredParams)
          / ((p.tokenize ((p.generate prompt (some measuredParams)).drop
              prompt.length)).length : ℚ) * 1000) := by
  constructor
  · rfl
  · intro r hr
    simp only [generateHelper] at hr
    split at hr
    · cases hr
    · rw [Except.ok.injEq] at hr
      rw [← hr]
      simp [add_sub_cancel_left]

/-- Witness for C4 on a pipeline that always answers "ab" in 2 seconds. -/
theorem claim_C4_single_timed_call_witness :
    (generateHelper ⟨fun _ _ => "ab", fun _ _ => 2, fun s => List.replicate s.length 0⟩ "a").1
      = List.replicate 5 ("Warm up", (none : Option GenParams))
        ++ [("a", some measuredParams)] :=
  (claim_C4_single_timed_call ⟨fun _ _ => "ab", fun _ _ => 2,
    fun s => List.replicate s.length 0⟩ "a").1

/-- C5: whenever the generated text beyond the prompt tokenizes to zero
tokens, `generate_helper` fails with a division-by-zero error. -/
theorem claim_C5_zero_token_division (p : Pipeline) (prompt : String)
    (h : p.tokenize ((p.generate prompt (some measuredParams)).drop prompt.length) = []) :
    (generateHelper p prompt).2 = .error "ZeroDivisionError" := by
  simp [generateHelper, h]

/-- Witness for C5 on a pipeline whose output beyond the prompt is empty and
tokenizes to no tokens. -/
theorem claim_C5_zero_token_division_witness :
    (generateHelper ⟨fun _ _ => "", fun _ _ => 0, fun _ => []⟩ "p").2
      = .error "ZeroDivisionError" :=
  claim_C5_zero_token_division ⟨fun _ _ => "", fun _ _ => 0, fun _ => []⟩ "p" rfl

/-- C6: the config-rewrite cell reads `config.json`, sets only
`disable_exllama` inside `quantization_config` to `False` and writes the
result back; every other file, every other top-level key, and every other
key inside `quantization_config` keep their values, and the key lists are
preserved (the inner one whenever the flag was already present). -/
theorem claim_C6_config_rewrite_frame (fs : FS) (kvs qkvs : List (String × Json))
    (hfile : lookupStr (pathJoin save_folder "config.json") fs = some (.obj kvs))
    (hqc : lookupStr "quantization_config" kvs = some (.obj qkvs)) :
    ∃ fs1 kvs1 qkvs1,
      configRewriteCell fs = .ok fs1 ∧
      (∀ path, path ≠ pathJoin save_folder "config.json" →
        lookupStr path fs1 = lookupStr path fs) ∧
      lookupStr (pathJoin save_folder "config.json") fs1 = some (.obj kvs1) ∧
      kvs1.map Prod.fst = kvs.map Prod.fst ∧
      (∀ k, k ≠ "quantization_config" → lookupStr k kvs1 = lookupStr k kvs) ∧
      lookupStr "quantization_config" kvs1 = some (.obj qkvs1) ∧
      lookupStr "disable_exllama" qkvs1 = some (.bool false) ∧
      (∀ k, k ≠ "disable_exllama" → lookupStr k qkvs1 = lookupStr k qkvs) ∧
      (lookupStr "disable_exllama" qkvs ≠ none →
        qkvs1.map Prod.fst = qkvs.map Prod.fst) := by
  refine ⟨setKey (pathJoin save_folder "config.json")
      (.obj (setKey "quantization_config"
        (.obj (setKey "disable_exllama" (.bool false) qkvs)) kvs)) fs,
    setKey "quantization_config"
      (.obj (setKey "disable_exllama" (.bool false) qkvs)) kvs,
    setKey "disable_exllama" (.bool false) qkvs,
    ?_, ?_, ?_, ?_, ?_, ?_, ?_, ?_, ?_⟩
  · simp [configRewriteCell, hfile, rewriteConfig, hqc, Except.map]
  · intro path hp
    exact lookupStr_setKey_ne _ _ _ _ hp
  · exact lookupStr_setKey_self _ _ _
  · exact keys_setKey_of_lookup _ _ _ _ hqc
  · intro k hk
    exact lookupStr_setKey_ne _ _ _ _ hk
  · exact lookupStr_setKey_self _ _ _
  · exact lookupStr_setKey_self _ _ _
  · intro k hk
    exact lookupStr_setKey_ne _ _ _ _ hk
  · intro hne
    obtain ⟨w, hw⟩ := Option.ne_none_iff_exists'.mp hne
    exact keys_setKey_of_lookup _ _ _ _ hw

/-- A concrete saved configuration used to exercise the config rewrite. -/
def sampleSavedFs : FS :=
  [(pathJoin save_folder "config.json",
    .obj [("model_type", .str "llama"),
          ("quantization_config",
            .obj [("bits", .num 4), ("disable_exllama", .bool true)])])]

/-- Witness for C6 on a concrete saved configuration. -/
theorem claim_C6_config_rewrite_frame_witness :
    ∃ fs1 kvs1 qkvs1,
      configRewriteCell sampleSavedFs = .ok fs1 ∧
      (∀ path, path ≠ pathJoin save_folder "config.json" →
        lookupStr path fs1 = lookupStr path sampleSavedFs) ∧
      lookupStr (pathJoin save_folder "config.json") fs1 = some (.obj kvs1) ∧
      kvs1.map Prod.fst =
        [("model_type", Json.str "llama"),
         ("quantization_config",
           Json.obj [("bits", .num 4), ("disable_exllama", .bool true)])].map Prod.fst ∧
      (∀ k, k ≠ "quantization_config" → lookupStr k kvs1 =
        lookupStr k [("model_type", Json.str "llama"),
          ("quantization_config",
            Json.obj [("bits", .num 4), ("disable_exllama", .bool true)])]) ∧
      lookupStr "quantization_config" kvs1 = some (.obj qkvs1) ∧
      lookupStr "disable_exllama" qkvs1 = some (.bool false) ∧
      (∀ k, k ≠ "disable_exllama" → lookupStr k qkvs1 =
        lookupStr k [("bits", Json.num 4), ("disable_exllama", .bool true)]) ∧
      (lookupStr "disable_exllama" [("bits", Json.num 4), ("disable_exllama", .bool true)]
          ≠ none →
        qkvs1.map Prod.fst =
          [("bits", Json.num 4), ("disable_exllama", Json.bool true)].map Prod.fst) :=
  claim_C6_config_rewrite_frame sampleSavedFs
    [("model_type", .str "llama"),
     ("quantization_config", .obj [("bits", .num 4), ("disable_exllama", .bool true)])]
    [("bits", .num 4), ("disable_exllama", .bool true)] rfl rfl

/-- C7: the notebook contains no exception handler, and its semantics
coincide with the straight-line run that aborts at the first library error
and hands it to the caller unchanged; every error the notebook ends with is
one some library call raised. -/
theorem claim_C7_error_propagation :
    containsTry notebookStmt = false ∧
    (∀ (σ ε : Type) (env : Op → σ → Except ε σ) (s : σ),
      evalStmt env notebookStmt s = runOps env notebookOps s) ∧
    (∀ (σ ε : Type) (env : Op → σ → Except ε σ) (s : σ) (e : ε),
      evalStmt env notebookStmt s = .error e →
      ∃ op s1, op ∈ notebookOps ∧ env op s1 = .error e) := by
  refine ⟨containsTry_stmtOfOps _, fun σ ε env s => evalStmt_stmtOfOps env _ s, ?_⟩
  intro σ ε env s e h
  unfold notebookStmt at h
  rw [evalStmt_stmtOfOps] at h
  exact runOps_error_origin env _ s e h

/-- Witness for C7: in an environment where every library call fails, the
notebook semantics agree with the first-error-aborts reference run. -/
theorem claim_C7_error_propagation_witness :
    evalStmt (fun (_ : Op) (_ : Nat) => (.error "oom" : Except String Nat)) notebookStmt 0
      = runOps (fun (_ : Op) (_ : Nat) => (.error "oom" : Except String Nat)) notebookOps 0 :=
  claim_C7_error_propagation.2.1 Nat String
    (fun (_ : Op) (_ : Nat) => (.error "oom" : Except String Nat)) 0

/-- C8: `torch.cuda.empty_cache()` appears exactly once in the whole
notebook, in the cleanup cell that deletes the baseline pipeline, model and
tokenizer, placed after the baseline benchmark and before the quantized
reload; no other cell contains the explicit release. -/
theorem claim_C8_single_cleanup :
    notebookOps.count Op.emptyCache = 1 ∧
    notebookCells[9]? = some [Op.delPipe, Op.delModel, Op.delTokenizer, Op.emptyCache] ∧
    notebookCells[8]? = some [Op.benchmarkVanilla] ∧
    notebookOps.indexOf Op.benchmarkVanilla < notebookOps.indexOf Op.delPipe ∧
    notebookOps.indexOf Op.emptyCache < notebookOps.indexOf Op.loadQuantizedModel ∧
    (∀ cell ∈ notebookCells, Op.emptyCache ∈ cell →
      cell = [Op.delPipe, Op.delModel, Op.delTokenizer, Op.emptyCache]) := by
  decide

/-- C10 counterexample: the claimed fixed linear order places every
benchmark step after the reload, but the baseline benchmark runs before the
quantized model is reloaded (and the baseline load follows the save), so the
phase ranks along the notebook are not monotone. -/
theorem claim_C10_counterexample :
    ¬ claimedOrderHolds ∧
    notebookOps.indexOf Op.benchmarkVanilla < notebookOps.indexOf Op.loadQuantizedModel ∧
    Op.benchmarkVanilla ∈ notebookOps ∧ Op.loadQuantizedModel ∈ notebookOps ∧
    notebookOps.indexOf Op.savePretrained < notebookOps.indexOf Op.loadVanillaModel := by
  decide

/-- C10 amended: the notebook runs setup, load, quantize, save and config
rewrite in that order; the baseline model is then loaded and benchmarked,
the quantized model is reloaded from the save folder only after the save and
the config rewrite and is benchmarked after that, and the external-server
deployment steps come last, closing the notebook. -/
theorem claim_C10_amended_order :
    notebookOps.indexOf Op.pipInstall = 0 ∧
    notebookOps.indexOf Op.loadModelFp16 < notebookOps.indexOf Op.quantizeModel ∧
    notebookOps.indexOf Op.quantizeModel < notebookOps.indexOf Op.savePretrained ∧
    notebookOps.indexOf Op.savePretrained < notebookOps.indexOf Op.rewriteConfigJson ∧
    notebookOps.indexOf Op.savePretrained < notebookOps.indexOf Op.loadVanillaModel ∧
    notebookOps.indexOf Op.loadVanillaModel < notebookOps.indexOf Op.benchmarkVanilla ∧
    notebookOps.indexOf Op.benchmarkVanilla < notebookOps.indexOf Op.loadQuantizedModel ∧
    notebookOps.indexOf Op.rewriteConfigJson < notebookOps.indexOf Op.loadQuantizedModel ∧
    notebookOps.indexOf Op.loadQuantizedModel < notebookOps.indexOf Op.benchmarkQuantized ∧
    notebookOps.indexOf Op.benchmarkQuantized < notebookOps.indexOf Op.dockerRunTgi ∧
    notebookOps.indexOf Op.dockerRunTgi = notebookOps.length - 2 ∧
    notebookOps.indexOf Op.curlGenerate = notebookOps.length - 1 := by
  decide

end GPTQNotebook
